import Mathlib

/-!
Verification development for the smart-devices device registry.

The Go repository layer (`internal/repository/device_repo.go`) persists
device records in a DynamoDB table.  We embed the table as an association
list from the primary key `id` to an item, where an item is a partial map
of the seven attributes the program ever reads or writes.  Each attribute
value is either a string attribute (`S`) or a number attribute (`N`),
mirroring `types.AttributeValueMemberS` / `types.AttributeValueMemberN`.

DynamoDB semantics embedded here:
 - `GetItem` on an absent key returns no item (no error);
 - `PutItem` unconditionally replaces the whole item;
 - `DeleteItem` on an absent key succeeds silently;
 - `UpdateItem` with a `SET` expression updates the named attributes of an
   existing item, and on an absent key *creates* an item holding the key
   attribute plus the SET attributes (upsert);
 - `Scan` returns every stored item.

Wall-clock time is passed explicitly as `nowMs`, the value of
`time.Now().UnixMilli()`; `time.Now().Unix()` is then `nowMs / 1000`,
which is exactly how the Go standard library relates the two readings
(for the non-negative epoch times that occur in practice).
-/

namespace SmartDevices

/-- A DynamoDB attribute value: string member or number member. -/
inductive AttrVal where
  | S (s : String)
  | N (n : Int)
deriving DecidableEq

/-- A stored item: the seven attributes of the devices table, each possibly
absent.  The Go code never reads or writes any other attribute. -/
structure Item where
  idA : Option AttrVal := none
  macA : Option AttrVal := none
  nameA : Option AttrVal := none
  typeA : Option AttrVal := none
  homeIdA : Option AttrVal := none
  createdAtA : Option AttrVal := none
  modifiedAtA : Option AttrVal := none
deriving DecidableEq

/-- The devices table: association list keyed by the primary key `id`. -/
abbrev Table := List (String × Item)

/-- `GetItem`: point lookup by key; absent key yields no item. -/
def lookupItem : Table → String → Option Item
  | [], _ => none
  | (k, it) :: t, id => if k = id then some it else lookupItem t id

/-- `PutItem`: unconditional upsert of a whole item. -/
def putItem : Table → String → Item → Table
  | [], id, it => [(id, it)]
  | (k, old) :: t, id, it =>
      if k = id then (id, it) :: t else (k, old) :: putItem t id it

/-- `DeleteItem`: removes the item if present; succeeds silently otherwise. -/
def deleteItem : Table → String → Table
  | [], _ => []
  | (k, old) :: t, id => if k = id then t else (k, old) :: deleteItem t id

/-- `UpdateItem` with a `SET` expression, given as a function rewriting the
named attributes.  On an absent key DynamoDB creates the item from the key
attribute plus the SET attributes. -/
def updateItem : Table → String → (Item → Item) → Table
  | [], id, sets => [(id, sets { idA := some (AttrVal.S id) })]
  | (k, old) :: t, id, sets =>
      if k = id then (k, sets old) :: t else (k, old) :: updateItem t id sets

/-- `Scan`: every stored item, in table order. -/
def scanItems (t : Table) : List Item := t.map Prod.snd

/-- `models.Device`: the device record (`internal/models`, struct `Device`).
Timestamps are Go `int64` epoch values. -/
structure Device where
  id : String
  mac : String
  name : String
  type : String
  homeId : String
  createdAt : Int
  modifiedAt : Int
deriving DecidableEq

/-- `attributevalue.MarshalMap` of a `Device`: all seven attributes present,
strings as `S` members and the two timestamps as `N` members. -/
def Device.toMap (d : Device) : Item :=
  { idA := some (AttrVal.S d.id)
    macA := some (AttrVal.S d.mac)
    nameA := some (AttrVal.S d.name)
    typeA := some (AttrVal.S d.type)
    homeIdA := some (AttrVal.S d.homeId)
    createdAtA := some (AttrVal.N d.createdAt)
    modifiedAtA := some (AttrVal.N d.modifiedAt) }

/-- Unmarshal one string field: an absent attribute yields the Go zero value
`""`; a number attribute in a string field is a type mismatch and fails. -/
def strField : Option AttrVal → Option String
  | none => some ""
  | some (AttrVal.S s) => some s
  | some (AttrVal.N _) => none

/-- Unmarshal one `int64` field: an absent attribute yields the Go zero value
`0`; a string attribute in a number field is a type mismatch and fails. -/
def intField : Option AttrVal → Option Int
  | none => some 0
  | some (AttrVal.N n) => some n
  | some (AttrVal.S _) => none

/-- `attributevalue.UnmarshalMap` into a `Device` (`Device.FromMap`): fails
iff some attribute is present with the wrong member type. -/
def Device.fromMap (it : Item) : Option Device :=
  match strField it.idA, strField it.macA, strField it.nameA,
        strField it.typeA, strField it.homeIdA,
        intField it.createdAtA, intField it.modifiedAtA with
  | some i, some m, some n, some ty, some h, some c, some mo =>
      some ⟨i, m, n, ty, h, c, mo⟩
  | _, _, _, _, _, _, _ => none

/-- The error values the repository and service layers return, named after
the Go error values in `internal/errors` (infrastructure failures of the
DynamoDB client itself cannot occur in this sequential embedding, so the
`WrapError(ErrorTypeDatabase, ...)` branches guarding them are unreachable
and carry no constructor). -/
inductive RepoError where
  | deviceNotFound
  | noDevicesFound
  | unmarshalDevice
  | unmarshalFailure
  | invalidDeviceID
  | missingHomeID
  | jsonUnmarshal
  | validationFailed (msgs : List String)
deriving DecidableEq

instance {ε α : Type} [DecidableEq ε] [DecidableEq α] :
    DecidableEq (Except ε α) := fun x y =>
  match x, y with
  | Except.error e, Except.error e' =>
    if h : e = e' then isTrue (by rw [h])
    else isFalse (by simp [Except.error.injEq, h])
  | Except.error _, Except.ok _ => isFalse (by simp)
  | Except.ok _, Except.error _ => isFalse (by simp)
  | Except.ok a, Except.ok b =>
    if h : a = b then isTrue (by rw [h])
    else isFalse (by simp [Except.ok.injEq, h])

/-- `DeviceRepository.GetDevice`: point read, `NotFound` on absent key,
unmarshal failure wrapped as a database error. -/
def GetDevice (t : Table) (id : String) : Except RepoError Device :=
  match lookupItem t id with
  | none => Except.error RepoError.deviceNotFound
  | some it =>
    match Device.fromMap it with
    | none => Except.error RepoError.unmarshalFailure
    | some d => Except.ok d

/-- `DeviceRepository.GetDevices`: scan; `result.Count == 0` yields
`ErrDomainNoDevicesFound`; items that fail to unmarshal are skipped; if no
item unmarshals while some were retrieved, `ErrUnmarshalDevice`. -/
def GetDevices (t : Table) : Except RepoError (List Device) :=
  let items := scanItems t
  if items.length = 0 then Except.error RepoError.noDevicesFound
  else
    let devices := items.filterMap Device.fromMap
    if devices.length = 0 ∧ 0 < items.length then
      Except.error RepoError.unmarshalDevice
    else Except.ok devices

/-- `DeviceRepository.DeleteDevice`: issues `DeleteItem` and returns its
(err-free) outcome; there is no existence check. -/
def DeleteDevice (t : Table) (id : String) : Except RepoError Unit × Table :=
  (Except.ok (), deleteItem t id)

/-- Number of entries the `updates` map of `DeviceRepository.UpdateDevice`
receives besides `:modifiedAt` (one per non-zero mutable field). -/
def mutableCount (update : Device) : Nat :=
  (if update.type ≠ "" then 1 else 0) + (if update.name ≠ "" then 1 else 0) +
    (if update.mac ≠ "" then 1 else 0) + (if update.homeId ≠ "" then 1 else 0)

/-- The `SET` assignments `UpdateDevice` issues: each non-zero mutable field
of the payload, plus `modifiedAt` always. -/
def mergeSets (update : Device) (now : Int) (it : Item) : Item :=
  { it with
    typeA := if update.type ≠ "" then some (AttrVal.S update.type) else it.typeA
    nameA := if update.name ≠ "" then some (AttrVal.S update.name) else it.nameA
    macA := if update.mac ≠ "" then some (AttrVal.S update.mac) else it.macA
    homeIdA := if update.homeId ≠ "" then some (AttrVal.S update.homeId) else it.homeIdA
    modifiedAtA := some (AttrVal.N now) }

/-- `DeviceRepository.UpdateDevice`: read current item (`NotFound` if
absent), unmarshal it, build the non-zero-field `updates` map, short-circuit
when only `:modifiedAt` is in it, else `UpdateItem` with the SET expression
(timestamp from `time.Now().Unix()`, i.e. seconds) and re-read.  The Go
re-read unmarshals `result.Item` even when nil, which yields the zero-value
device; `(lookupItem t2 id).getD {}` mirrors that. -/
def UpdateDevice (t : Table) (id : String) (update : Device) (nowMs : Int) :
    Except RepoError Device × Table :=
  match lookupItem t id with
  | none => (Except.error RepoError.deviceNotFound, t)
  | some it =>
    match Device.fromMap it with
    | none => (Except.error RepoError.unmarshalFailure, t)
    | some currentDevice =>
      if mutableCount update = 0 then (Except.ok currentDevice, t)
      else
        let now := nowMs / 1000
        let t2 := updateItem t id (mergeSets update now)
        match Device.fromMap ((lookupItem t2 id).getD {}) with
        | none => (Except.error RepoError.unmarshalFailure, t2)
        | some updatedDevice => (Except.ok updatedDevice, t2)

/-- `DeviceRepository.CreateDevice`: the store overwrites `device.ID` with a
fresh `uuid.New().String()` (modelled as the injected `freshId`), stamps
`CreatedAt = ModifiedAt = time.Now().UnixMilli()`, and `PutItem`s the
marshalled record. -/
def CreateDevice (t : Table) (device : Device) (freshId : String) (nowMs : Int) :
    Device × Table :=
  let d := { device with id := freshId, createdAt := nowMs, modifiedAt := nowMs }
  (d, putItem t d.id d.toMap)

/-- The `SET` assignments of `DeviceRepository.UpdateDeviceHomeID`:
`homeId` and `modifiedAt` only. -/
def patchSets (homeID : String) (now : Int) (it : Item) : Item :=
  { it with
    homeIdA := some (AttrVal.S homeID)
    modifiedAtA := some (AttrVal.N now) }

/-- `DeviceRepository.UpdateDeviceHomeID`: unconditional `UpdateItem`
setting `homeId` and `modifiedAt` (timestamp from `time.Now().Unix()`,
seconds); no existence check, so DynamoDB upserts on an absent key. -/
def UpdateDeviceHomeID (t : Table) (id homeID : String) (nowMs : Int) :
    Except RepoError Unit × Table :=
  (Except.ok (), updateItem t id (patchSets homeID (nowMs / 1000)))

/-- `DeviceService.UpdateDeviceHomeID`: rejects an empty device id, then an
empty home id, before delegating to the repository. -/
def svcUpdateDeviceHomeID (t : Table) (id homeID : String) (nowMs : Int) :
    Except RepoError Unit × Table :=
  if id = "" then (Except.error RepoError.invalidDeviceID, t)
  else if homeID = "" then (Except.error RepoError.missingHomeID, t)
  else UpdateDeviceHomeID t id homeID nowMs

/-- `models.SQSMessage`: the decoded association-change event. -/
structure SQSMessage where
  deviceId : String
  homeId : String
  action : String
deriving DecidableEq

/-- The outcome of `json.Unmarshal` on one raw SQS record body: either the
body is malformed JSON, or it decodes to an `SQSMessage`. -/
inductive SQSBody where
  | malformed
  | msg (m : SQSMessage)
deriving DecidableEq

/-- `SQSService.ProcessMessage`: decode the body (returning the unmarshal
error on failure), then `DeviceService.UpdateDeviceHomeID`. -/
def sqsProcessMessage (t : Table) (body : SQSBody) (nowMs : Int) :
    Except RepoError Unit × Table :=
  match body with
  | SQSBody.malformed => (Except.error RepoError.jsonUnmarshal, t)
  | SQSBody.msg m => svcUpdateDeviceHomeID t m.deviceId m.homeId nowMs

/-- `SQSHandler.ProcessMessage`: iterate over the batch records in delivery
order; on the first record whose processing fails, return that error
immediately (the remaining records of the batch are not processed). -/
def sqsHandlerProcessMessage (t : Table) : List SQSBody → Int →
    Except RepoError Unit × Table
  | [], _ => (Except.ok (), t)
  | r :: rs, nowMs =>
    match sqsProcessMessage t r nowMs with
    | (Except.error e, t') => (Except.error e, t')
    | (Except.ok _, t') => sqsHandlerProcessMessage t' rs nowMs

/-- A hexadecimal digit, as matched by `[0-9A-Fa-f]`. -/
def isHexDigit (c : Char) : Bool :=
  c.isDigit || ('A' ≤ c && c ≤ 'F') || ('a' ≤ c && c ≤ 'f')

/-- The MAC regex `^([0-9A-Fa-f]{2}[:-]){5}([0-9A-Fa-f]{2})$`: 17 characters,
a separator (`:` or `-`, independently per group) at positions 2, 5, 8, 11,
14 and hex digits everywhere else. -/
def macRegexMatches (s : String) : Bool :=
  let cs := s.data
  cs.length == 17 &&
    (List.range 17).all fun i =>
      if i % 3 == 2 then cs.getD i ' ' == ':' || cs.getD i ' ' == '-'
      else isHexDigit (cs.getD i ' ')

/-- The canonical 36-character UUID layout: hyphens at positions 8, 13, 18,
23 and hex digits elsewhere. -/
def isCanonicalUuid (cs : List Char) : Bool :=
  cs.length == 36 &&
    (List.range 36).all fun i =>
      if i == 8 || i == 13 || i == 18 || i == 23 then cs.getD i ' ' == '-'
      else isHexDigit (cs.getD i ' ')

/-- `uuid.Parse` acceptance: canonical form, `urn:uuid:` form, braced form,
or 32 raw hex digits. -/
def uuidParseOk (s : String) : Bool :=
  let cs := s.data
  if cs.length == 36 then isCanonicalUuid cs
  else if cs.length == 45 then
    "urn:uuid:".data.isPrefixOf cs && isCanonicalUuid (cs.drop 9)
  else if cs.length == 38 then
    cs.headD ' ' == '{' && cs.getLastD ' ' == '}' &&
      isCanonicalUuid ((cs.drop 1).take 36)
  else if cs.length == 32 then cs.all isHexDigit
  else false

/-- `models.CreateDeviceRequest`. -/
structure CreateDeviceRequest where
  mac : String
  name : String
  type : String
  homeId : String
deriving DecidableEq

/-- The enumerated device types (`validTypes` in `ValidateCreateDeviceRequest`
and `ValidateUpdateDeviceRequest`). -/
def validTypes : List String := ["thermostat", "light", "camera", "sensor"]

/-- The `validationErrors` list built by `ValidateCreateDeviceRequest`, in
append order: MAC, name, type, homeId. -/
def createDeviceViolations (req : CreateDeviceRequest) : List String :=
  (if req.mac = "" then ["MAC address is required"]
   else if ¬ macRegexMatches req.mac then
     ["MAC address format is invalid (expected format: XX:XX:XX:XX:XX:XX)"]
   else []) ++
  (if req.name = "" then ["name is required"]
   else if req.name.utf8ByteSize < 1 ∨ 100 < req.name.utf8ByteSize then
     ["name must be between 1 and 100 characters"]
   else []) ++
  (if req.type = "" then ["type is required"]
   else if ¬ validTypes.contains req.type then
     ["type must be one of: thermostat, light, camera, sensor"]
   else []) ++
  (if req.homeId = "" then ["homeId is required"]
   else if ¬ uuidParseOk req.homeId then ["homeId must be a valid UUID"]
   else [])

/-- `validation.ValidateCreateDeviceRequest`: error carrying the violation
list (the Go joins it with `"; "` into the failure message) iff the list is
non-empty. -/
def ValidateCreateDeviceRequest (req : CreateDeviceRequest) : Option RepoError :=
  let validationErrors := createDeviceViolations req
  if 0 < validationErrors.length then
    some (RepoError.validationFailed validationErrors)
  else none

/-- The joined failure message, `strings.Join(validationErrors, "; ")`. -/
def joinedMessage (msgs : List String) : String := String.intercalate "; " msgs

/-- `models.UpdateDeviceRequest`: optional fields (`nil` = not supplied). -/
structure UpdateDeviceRequest where
  name : Option String
  type : Option String
  homeId : Option String
deriving DecidableEq

/-- The `validationErrors` list built by `ValidateUpdateDeviceRequest`:
per-field rules when supplied, plus the at-least-one-field rule. -/
def updateDeviceViolations (req : UpdateDeviceRequest) : List String :=
  (match req.name with
   | none => []
   | some n =>
     if n.utf8ByteSize < 1 ∨ 100 < n.utf8ByteSize then
       ["name must be between 1 and 100 characters"]
     else []) ++
  (match req.type with
   | none => []
   | some ty =>
     if ¬ validTypes.contains ty then
       ["type must be one of: thermostat, light, camera, sensor"]
     else []) ++
  (match req.homeId with
   | none => []
   | some h => if ¬ uuidParseOk h then ["homeId must be a valid UUID"] else []) ++
  (if req.name = none ∧ req.type = none ∧ req.homeId = none then
     ["at least one field (name, type, or homeId) must be provided for update"]
   else [])

/-- `validation.ValidateUpdateDeviceRequest`. -/
def ValidateUpdateDeviceRequest (req : UpdateDeviceRequest) : Option RepoError :=
  let validationErrors := updateDeviceViolations req
  if 0 < validationErrors.length then
    some (RepoError.validationFailed validationErrors)
  else none

/-- A sequence of `CreateDevice` calls: each call supplies a payload, the
fresh uuid the store draws, and the wall clock at that call; returns the
final table and the created records in call order. -/
def createAll : Table → List (Device × String × Int) → Table × List Device
  | t, [] => (t, [])
  | t, (d, freshId, nowMs) :: rest =>
    let r := CreateDevice t d freshId nowMs
    let rest' := createAll r.2 rest
    (rest'.1, r.1 :: rest'.2)

/-- The result of merging an update payload onto a stored record: fields
whose payload value is the zero value `""` keep the stored value, the rest
take the payload value; `id` and `createdAt` are untouched and `modifiedAt`
takes the write-time clock reading. -/
def mergeDevice (R update : Device) (now : Int) : Device :=
  { id := R.id
    mac := if update.mac = "" then R.mac else update.mac
    name := if update.name = "" then R.name else update.name
    type := if update.type = "" then R.type else update.type
    homeId := if update.homeId = "" then R.homeId else update.homeId
    createdAt := R.createdAt
    modifiedAt := now }

theorem fromMap_toMap (d : Device) : Device.fromMap d.toMap = some d := rfl

theorem lookupItem_updateItem_self (t : Table) (id : String)
    (sets : Item → Item) (it : Item) (h : lookupItem t id = some it) :
    lookupItem (updateItem t id sets) id = some (sets it) := by
  induction t with
  | nil => simp [lookupItem] at h
  | cons p t ih =>
    obtain ⟨k, old⟩ := p
    by_cases hk : k = id
    · subst hk
      simp [lookupItem, updateItem] at h ⊢
      simp [h]
    · simp [lookupItem, updateItem, hk] at h ⊢
      exact ih h

theorem fromMap_mergeSets (R update : Device) (now : Int) :
    Device.fromMap (mergeSets update now R.toMap) =
      some (mergeDevice R update now) := by
  by_cases h1 : update.mac = "" <;> by_cases h2 : update.name = "" <;>
    by_cases h3 : update.type = "" <;> by_cases h4 : update.homeId = "" <;>
    simp [mergeSets, Device.toMap, Device.fromMap, mergeDevice,
      strField, intField, h1, h2, h3, h4]

theorem fromMap_patchSets (R : Device) (homeID : String) (now : Int) :
    Device.fromMap (patchSets homeID now R.toMap) =
      some { R with homeId := homeID, modifiedAt := now } := rfl

/-- `UpdateDevice` on a stored well-formed record with an all-zero payload:
the short-circuit returns the current record and does not write. -/
theorem updateDevice_noop (t : Table) (id : String) (R update : Device)
    (nowMs : Int) (h : lookupItem t id = some R.toMap)
    (h0 : mutableCount update = 0) :
    UpdateDevice t id update nowMs = (Except.ok R, t) := by
  simp [UpdateDevice, h, fromMap_toMap, h0]

/-- `UpdateDevice` on a stored well-formed record with at least one non-zero
mutable field: writes the merge and returns the re-read merged record. -/
theorem updateDevice_write (t : Table) (id : String) (R update : Device)
    (nowMs : Int) (h : lookupItem t id = some R.toMap)
    (h0 : mutableCount update ≠ 0) :
    UpdateDevice t id update nowMs =
      (Except.ok (mergeDevice R update (nowMs / 1000)),
        updateItem t id (mergeSets update (nowMs / 1000))) := by
  have hl := lookupItem_updateItem_self t id
    (mergeSets update (nowMs / 1000)) R.toMap h
  simp [UpdateDevice, h, fromMap_toMap, h0, hl, fromMap_mergeSets]

theorem mutableCount_eq_zero (u : Device) :
    mutableCount u = 0 ↔
      u.type = "" ∧ u.name = "" ∧ u.mac = "" ∧ u.homeId = "" := by
  unfold mutableCount
  by_cases h1 : u.type = "" <;> by_cases h2 : u.name = "" <;>
    by_cases h3 : u.mac = "" <;> by_cases h4 : u.homeId = "" <;>
    simp [h1, h2, h3, h4]

/-- C1: the monotonicity claim fails on the code.  A record created at
wall-clock 1700000000000 ms gets `modifiedAt = createdAt = 1700000000000`
(from `time.Now().UnixMilli()`), but the synchronous update path stamps
`modifiedAt` with `time.Now().Unix()` (seconds): a name change one second
later writes `modifiedAt = 1700000001`, strictly *smaller* than the
previous value, so `modifiedAt` is not monotonically non-decreasing (and no
write path disambiguates equal-timestamp collisions at all). -/
theorem C1_modifiedAt_not_monotone :
    (CreateDevice []
        ⟨"", "00:11:22:33:44:55", "Thermo", "thermostat", "home-1", 0, 0⟩
        "d1" 1700000000000).1.modifiedAt = 1700000000000 ∧
    (UpdateDevice
        (CreateDevice []
          ⟨"", "00:11:22:33:44:55", "Thermo", "thermostat", "home-1", 0, 0⟩
          "d1" 1700000000000).2
        "d1" ⟨"", "", "Thermo2", "", "", 0, 0⟩ 1700000001000).1 =
      Except.ok ⟨"d1", "00:11:22:33:44:55", "Thermo2", "thermostat",
        "home-1", 1700000000000, 1700000001⟩ ∧
    (1700000001 : Int) <
      (CreateDevice []
        ⟨"", "00:11:22:33:44:55", "Thermo", "thermostat", "home-1", 0, 0⟩
        "d1" 1700000000000).1.modifiedAt := by
  decide

/-- C3: on an absent identifier, `GetDevice` and `UpdateDevice` do report
not-found, but `DeleteDevice` issues an unchecked `DeleteItem` and returns
success, and `UpdateDeviceHomeID` issues an unchecked `UpdateItem` which
returns success and *creates* a partial record holding only `id`, `homeId`
and `modifiedAt` — contradicting the claim that all four operations report
NotFound rather than succeeding or creating a record. -/
theorem C3_absent_identifier_behaviour :
    GetDevice [] "d1" = Except.error RepoError.deviceNotFound ∧
    (UpdateDevice [] "d1" ⟨"", "", "Thermo2", "", "", 0, 0⟩
        1700000000000).1 = Except.error RepoError.deviceNotFound ∧
    DeleteDevice [] "d1" = (Except.ok (), []) ∧
    UpdateDeviceHomeID [] "d1" "h1" 1700000000000 =
      (Except.ok (),
        [("d1", { idA := some (AttrVal.S "d1"),
                  homeIdA := some (AttrVal.S "h1"),
                  modifiedAtA := some (AttrVal.N 1700000000) })]) := by
  decide

/-- C9: evaluating the patch-then-get scenario.  After creating a record at
1700000000000 ms and patching `homeId` to "home-2" two seconds later, `get`
shows the new `homeId` with `id`, `mac`, `name`, `type` and `createdAt`
untouched — but `modifiedAt` becomes 1700000002 (Unix seconds), strictly
smaller than its previous value 1700000000000 (milliseconds), so the
claimed "advanced modifiedAt" fails. -/
theorem C9_patch_frame_and_timestamp :
    GetDevice
        (UpdateDeviceHomeID
          (CreateDevice []
            ⟨"", "00:11:22:33:44:55", "Thermo", "thermostat", "home-1", 0, 0⟩
            "d1" 1700000000000).2
          "d1" "home-2" 1700000002000).2 "d1" =
      Except.ok ⟨"d1", "00:11:22:33:44:55", "Thermo", "thermostat",
        "home-2", 1700000000000, 1700000002⟩ ∧
    (1700000002 : Int) <
      (CreateDevice []
        ⟨"", "00:11:22:33:44:55", "Thermo", "thermostat", "home-1", 0, 0⟩
        "d1" 1700000000000).1.modifiedAt := by
  decide

/-- C4 counterexample: a batch whose first record is malformed.  The handler
returns the failure immediately and the well-formed sibling event is never
processed (the store is left empty), although processing that sibling alone
does change the store — refuting "the sibling events of that batch are
still processed". -/
theorem C4_counterexample :
    sqsHandlerProcessMessage []
        [SQSBody.malformed, SQSBody.msg ⟨"d1", "h1", "associate"⟩]
        1700000000000 =
      (Except.error RepoError.jsonUnmarshal, []) ∧
    (sqsHandlerProcessMessage []
        [SQSBody.msg ⟨"d1", "h1", "associate"⟩] 1700000000000).2 ≠ [] := by
  decide

/-- C4 (amended): within one delivered batch, the records preceding the
first failing record are processed in order; the failing record's error is
returned immediately, so the records after it are not processed and the
final store state is exactly the state after the failing record's own
attempt. -/
theorem C4_failure_halts_rest_of_batch (pre : List SQSBody) (t t1 : Table)
    (b : SQSBody) (post : List SQSBody) (nowMs : Int) (e : RepoError)
    (hpre : sqsHandlerProcessMessage t pre nowMs = (Except.ok (), t1))
    (hb : (sqsProcessMessage t1 b nowMs).1 = Except.error e) :
    sqsHandlerProcessMessage t (pre ++ b :: post) nowMs =
      (Except.error e, (sqsProcessMessage t1 b nowMs).2) := by
  induction pre generalizing t with
  | nil =>
    simp only [sqsHandlerProcessMessage, Prod.mk.injEq, true_and] at hpre
    subst hpre
    cases hsp : sqsProcessMessage t b nowMs with
    | mk r1 t2 =>
      rw [hsp] at hb
      obtain rfl : r1 = Except.error e := hb
      simp only [List.nil_append]
      simp [sqsHandlerProcessMessage, hsp]
  | cons r pre ih =>
    cases hsp : sqsProcessMessage t r nowMs with
    | mk r1 t2 =>
      cases r1 with
      | error e' =>
        rw [show (r :: pre) = [r] ++ pre from rfl] at hpre
        simp [sqsHandlerProcessMessage, hsp] at hpre
      | ok u =>
        have hpre' : sqsHandlerProcessMessage t2 pre nowMs = (Except.ok (), t1) := by
          simpa [sqsHandlerProcessMessage, hsp] using hpre
        simpa [sqsHandlerProcessMessage, hsp] using ih t2 hpre'

/-- C4 witness: a concrete batch of three records where the first succeeds,
the second is malformed, and the third is never reached. -/
theorem C4_failure_halts_rest_of_batch_witness :
    sqsHandlerProcessMessage []
        ([SQSBody.msg ⟨"d0", "h0", "associate"⟩] ++
          SQSBody.malformed :: [SQSBody.msg ⟨"d1", "h1", "associate"⟩])
        1700000000000 =
      (Except.error RepoError.jsonUnmarshal,
        (sqsProcessMessage
          [("d0", { idA := some (AttrVal.S "d0"),
                    homeIdA := some (AttrVal.S "h0"),
                    modifiedAtA := some (AttrVal.N 1700000000) })]
          SQSBody.malformed 1700000000000).2) :=
  C4_failure_halts_rest_of_batch
    [SQSBody.msg ⟨"d0", "h0", "associate"⟩] []
    [("d0", { idA := some (AttrVal.S "d0"),
              homeIdA := some (AttrVal.S "h0"),
              modifiedAtA := some (AttrVal.N 1700000000) })]
    SQSBody.malformed [SQSBody.msg ⟨"d1", "h1", "associate"⟩]
    1700000000000 RepoError.jsonUnmarshal (by decide) (by decide)

/-- C2: merge correctness of the synchronous partial update.  For a stored
well-formed record `R`, `UpdateDevice` succeeds and returns a record in
which every mutable field supplied in the payload (non-zero in the Go
struct) equals the payload's value, every field not supplied keeps `R`'s
prior value, and `id` and `createdAt` are unchanged; unspecified fields are
never reset to the zero value. -/
theorem C2_merge_correctness (t : Table) (id : String) (R update : Device)
    (nowMs : Int) (h : lookupItem t id = some R.toMap) :
    ∃ d t', UpdateDevice t id update nowMs = (Except.ok d, t') ∧
      d.mac = (if update.mac = "" then R.mac else update.mac) ∧
      d.name = (if update.name = "" then R.name else update.name) ∧
      d.type = (if update.type = "" then R.type else update.type) ∧
      d.homeId = (if update.homeId = "" then R.homeId else update.homeId) ∧
      d.id = R.id ∧ d.createdAt = R.createdAt := by
  by_cases h0 : mutableCount update = 0
  · obtain ⟨h1, h2, h3, h4⟩ := (mutableCount_eq_zero update).mp h0
    exact ⟨R, t, updateDevice_noop t id R update nowMs h h0,
      by simp [h3], by simp [h2], by simp [h1], by simp [h4], rfl, rfl⟩
  · exact ⟨mergeDevice R update (nowMs / 1000),
      updateItem t id (mergeSets update (nowMs / 1000)),
      updateDevice_write t id R update nowMs h h0,
      rfl, rfl, rfl, rfl, rfl, rfl⟩

/-- C2 witness: partial update of `name` alone on a concrete stored record
preserves `mac`, `type`, `homeId`, `id` and `createdAt`. -/
theorem C2_merge_correctness_witness :
    ∃ d t', UpdateDevice
        [("d1", Device.toMap ⟨"d1", "00:11:22:33:44:55", "Thermo",
          "thermostat", "home-1", 1700000000000, 1700000000000⟩)]
        "d1" ⟨"", "", "Thermo2", "", "", 0, 0⟩ 1700000001000 =
        (Except.ok d, t') ∧
      d.mac = (if "" = "" then "00:11:22:33:44:55" else "") ∧
      d.name = (if "Thermo2" = "" then "Thermo" else "Thermo2") ∧
      d.type = (if "" = "" then "thermostat" else "") ∧
      d.homeId = (if "" = "" then "home-1" else "") ∧
      d.id = "d1" ∧ d.createdAt = 1700000000000 :=
  C2_merge_correctness
    [("d1", Device.toMap ⟨"d1", "00:11:22:33:44:55", "Thermo", "thermostat",
      "home-1", 1700000000000, 1700000000000⟩)]
    "d1" ⟨"d1", "00:11:22:33:44:55", "Thermo", "thermostat", "home-1",
      1700000000000, 1700000000000⟩
    ⟨"", "", "Thermo2", "", "", 0, 0⟩ 1700000001000 (by decide)

/-- C6: an update whose payload carries no mutable field short-circuits:
`UpdateDevice` returns the unmodified current record without writing, so a
subsequent `get` shows the same record (same `modifiedAt`); and the
handler-level validation independently rejects the empty update request
with a validation failure, so both disciplines of the claim hold. -/
theorem C6_noop_update (t : Table) (id : String) (R update : Device)
    (nowMs : Int) (h : lookupItem t id = some R.toMap)
    (hmac : update.mac = "") (hname : update.name = "")
    (htype : update.type = "") (hhome : update.homeId = "") :
    UpdateDevice t id update nowMs = (Except.ok R, t) ∧
    GetDevice (UpdateDevice t id update nowMs).2 id = Except.ok R ∧
    ValidateUpdateDeviceRequest ⟨none, none, none⟩ =
      some (RepoError.validationFailed
        ["at least one field (name, type, or homeId) must be provided for update"]) := by
  have h0 : mutableCount update = 0 :=
    (mutableCount_eq_zero update).mpr ⟨htype, hname, hmac, hhome⟩
  have hu := updateDevice_noop t id R update nowMs h h0
  refine ⟨hu, ?_, by decide⟩
  rw [hu]
  simp [GetDevice, h, fromMap_toMap]

/-- C6 witness: the empty update on a concrete stored record returns the
record unchanged and `get` still sees the original `modifiedAt`. -/
theorem C6_noop_update_witness :
    UpdateDevice
        [("d1", Device.toMap ⟨"d1", "00:11:22:33:44:55", "Thermo",
          "thermostat", "home-1", 1700000000000, 1700000000000⟩)]
        "d1" ⟨"", "", "", "", "", 0, 0⟩ 1700000005000 =
      (Except.ok ⟨"d1", "00:11:22:33:44:55", "Thermo", "thermostat",
        "home-1", 1700000000000, 1700000000000⟩,
       [("d1", Device.toMap ⟨"d1", "00:11:22:33:44:55", "Thermo",
          "thermostat", "home-1", 1700000000000, 1700000000000⟩)]) ∧
    GetDevice (UpdateDevice
        [("d1", Device.toMap ⟨"d1", "00:11:22:33:44:55", "Thermo",
          "thermostat", "home-1", 1700000000000, 1700000000000⟩)]
        "d1" ⟨"", "", "", "", "", 0, 0⟩ 1700000005000).2 "d1" =
      Except.ok ⟨"d1", "00:11:22:33:44:55", "Thermo", "thermostat",
        "home-1", 1700000000000, 1700000000000⟩ ∧
    ValidateUpdateDeviceRequest ⟨none, none, none⟩ =
      some (RepoError.validationFailed
        ["at least one field (name, type, or homeId) must be provided for update"]) :=
  C6_noop_update
    [("d1", Device.toMap ⟨"d1", "00:11:22:33:44:55", "Thermo", "thermostat",
      "home-1", 1700000000000, 1700000000000⟩)]
    "d1" ⟨"d1", "00:11:22:33:44:55", "Thermo", "thermostat", "home-1",
      1700000000000, 1700000000000⟩
    ⟨"", "", "", "", "", 0, 0⟩ 1700000005000 (by decide) rfl rfl rfl rfl

/-- C10: empty-string payload fields are treated as absent, so no
synchronous update can clear a field: if every mutable field of the stored
record is non-empty, the record returned by any `UpdateDevice` call still
has every mutable field non-empty; and the service layer rejects an empty
`homeId` on the asynchronous path before any write, leaving the store
unchanged. -/
theorem C10_no_field_cleared (t : Table) (id : String) (R update : Device)
    (nowMs : Int) (h : lookupItem t id = some R.toMap)
    (hmac : R.mac ≠ "") (hname : R.name ≠ "")
    (htype : R.type ≠ "") (hhome : R.homeId ≠ "") :
    (∃ d t', UpdateDevice t id update nowMs = (Except.ok d, t') ∧
      d.mac ≠ "" ∧ d.name ≠ "" ∧ d.type ≠ "" ∧ d.homeId ≠ "") ∧
    (id ≠ "" →
      svcUpdateDeviceHomeID t id "" nowMs =
        (Except.error RepoError.missingHomeID, t)) := by
  constructor
  · by_cases h0 : mutableCount update = 0
    · exact ⟨R, t, updateDevice_noop t id R update nowMs h h0,
        hmac, hname, htype, hhome⟩
    · refine ⟨mergeDevice R update (nowMs / 1000),
        updateItem t id (mergeSets update (nowMs / 1000)),
        updateDevice_write t id R update nowMs h h0, ?_, ?_, ?_, ?_⟩
      · by_cases hm : update.mac = "" <;> simp [mergeDevice, hm, hmac]
      · by_cases hn : update.name = "" <;> simp [mergeDevice, hn, hname]
      · by_cases ht : update.type = "" <;> simp [mergeDevice, ht, htype]
      · by_cases hh : update.homeId = "" <;> simp [mergeDevice, hh, hhome]
  · intro hid
    simp [svcUpdateDeviceHomeID, hid]

/-- C10 witness: an update supplying only `homeId` on a concrete fully
populated record leaves every field non-empty, and the service rejects the
empty `homeId` patch without writing. -/
theorem C10_no_field_cleared_witness :
    (∃ d t', UpdateDevice
        [("d1", Device.toMap ⟨"d1", "00:11:22:33:44:55", "Thermo",
          "thermostat", "home-1", 1700000000000, 1700000000000⟩)]
        "d1" ⟨"", "", "", "", "home-2", 0, 0⟩ 1700000001000 =
        (Except.ok d, t') ∧
      d.mac ≠ "" ∧ d.name ≠ "" ∧ d.type ≠ "" ∧ d.homeId ≠ "") ∧
    ("d1" ≠ "" →
      svcUpdateDeviceHomeID
        [("d1", Device.toMap ⟨"d1", "00:11:22:33:44:55", "Thermo",
          "thermostat", "home-1", 1700000000000, 1700000000000⟩)]
        "d1" "" 1700000001000 =
        (Except.error RepoError.missingHomeID,
          [("d1", Device.toMap ⟨"d1", "00:11:22:33:44:55", "Thermo",
            "thermostat", "home-1", 1700000000000, 1700000000000⟩)])) :=
  C10_no_field_cleared
    [("d1", Device.toMap ⟨"d1", "00:11:22:33:44:55", "Thermo", "thermostat",
      "home-1", 1700000000000, 1700000000000⟩)]
    "d1" ⟨"d1", "00:11:22:33:44:55", "Thermo", "thermostat", "home-1",
      1700000000000, 1700000000000⟩
    ⟨"", "", "", "", "home-2", 0, 0⟩ 1700000001000 (by decide)
    (by decide) (by decide) (by decide) (by decide)

/-- C5: the three scan outcomes.  On an empty store the scan reports
no-devices-found (not an empty success); when items exist and at least one
deserializes, the well-formed items are returned in order with the
malformed ones skipped; when items exist but none deserializes, the
distinct unmarshal-failure error is reported. -/
theorem C5_scan_outcomes (t : Table) :
    (t = [] → GetDevices t = Except.error RepoError.noDevicesFound) ∧
    (t ≠ [] → (∃ p ∈ t, (Device.fromMap p.2).isSome) →
      GetDevices t = Except.ok ((scanItems t).filterMap Device.fromMap)) ∧
    (t ≠ [] → (∀ p ∈ t, Device.fromMap p.2 = none) →
      GetDevices t = Except.error RepoError.unmarshalDevice) := by
  refine ⟨?_, ?_, ?_⟩
  · rintro rfl
    rfl
  · rintro hne ⟨p, hp, hsome⟩
    obtain ⟨d, hd⟩ := Option.isSome_iff_exists.mp hsome
    have hlen : ¬ (scanItems t).length = 0 := by
      simp [scanItems, List.length_eq_zero, hne]
    have hdev : d ∈ (scanItems t).filterMap Device.fromMap :=
      List.mem_filterMap.mpr ⟨p.2, List.mem_map.mpr ⟨p, hp, rfl⟩, hd⟩
    have hdlen : ¬ ((scanItems t).filterMap Device.fromMap).length = 0 := by
      intro h0
      rw [List.length_eq_zero] at h0
      rw [h0] at hdev
      exact List.not_mem_nil d hdev
    simp [GetDevices, hlen, hdlen]
  · intro hne hall
    have hlen : ¬ (scanItems t).length = 0 := by
      simp [scanItems, List.length_eq_zero, hne]
    have hfm : (scanItems t).filterMap Device.fromMap = [] := by
      rw [List.filterMap_eq_nil_iff]
      intro a ha
      obtain ⟨p, hp, rfl⟩ := List.mem_map.mp ha
      exact hall p hp
    simp [GetDevices, hlen, hfm, Nat.pos_of_ne_zero hlen]

/-- C5 witness: the empty store errors with no-devices-found; a store with
one malformed and one well-formed item returns just the well-formed record;
a store with only malformed items errors with the unmarshal failure. -/
theorem C5_scan_outcomes_witness :
    GetDevices [] = Except.error RepoError.noDevicesFound ∧
    GetDevices
        [("bad", { macA := some (AttrVal.N 7) }),
         ("d1", Device.toMap ⟨"d1", "00:11:22:33:44:55", "Thermo",
           "thermostat", "home-1", 1700000000000, 1700000000000⟩)] =
      Except.ok [⟨"d1", "00:11:22:33:44:55", "Thermo", "thermostat",
        "home-1", 1700000000000, 1700000000000⟩] ∧
    GetDevices [("bad", { macA := some (AttrVal.N 7) })] =
      Except.error RepoError.unmarshalDevice := by
  refine ⟨(C5_scan_outcomes []).1 rfl, ?_, ?_⟩
  · exact ((C5_scan_outcomes
      [("bad", { macA := some (AttrVal.N 7) }),
       ("d1", Device.toMap ⟨"d1", "00:11:22:33:44:55", "Thermo",
         "thermostat", "home-1", 1700000000000, 1700000000000⟩)]).2.1
      (by decide)
      ⟨("d1", Device.toMap ⟨"d1", "00:11:22:33:44:55", "Thermo",
         "thermostat", "home-1", 1700000000000, 1700000000000⟩),
        by decide, by decide⟩).trans (by decide)
  · exact (C5_scan_outcomes
      [("bad", { macA := some (AttrVal.N 7) })]).2.2 (by decide) (by decide)

theorem createAll_ids (calls : List (Device × String × Int)) (t : Table) :
    (createAll t calls).2.map Device.id = calls.map fun c => c.2.1 := by
  induction calls generalizing t with
  | nil => rfl
  | cons c rest ih =>
    obtain ⟨d, freshId, nowMs⟩ := c
    simp [createAll, CreateDevice, ih]

/-- C7: creation identity and uniqueness.  The created record's `id` is the
store-drawn fresh uuid regardless of any caller-supplied `id`, and
`createdAt = modifiedAt = nowMs` where `nowMs` is the creation-time
`UnixMilli` reading; across any sequence of creates whose uuid draws are
pairwise distinct, the resulting record ids are pairwise distinct. -/
theorem C7_create_identity (t : Table) (device : Device) (freshId : String)
    (nowMs : Int) (calls : List (Device × String × Int))
    (hnodup : (calls.map fun c => c.2.1).Nodup) :
    (CreateDevice t device freshId nowMs).1 =
      { device with id := freshId, createdAt := nowMs, modifiedAt := nowMs } ∧
    (CreateDevice t device freshId nowMs).1.modifiedAt =
      (CreateDevice t device freshId nowMs).1.createdAt ∧
    ((createAll t calls).2.map Device.id).Nodup := by
  refine ⟨rfl, rfl, ?_⟩
  rw [createAll_ids]
  exact hnodup

/-- C7 witness: two concrete creates with distinct uuid draws yield records
with distinct ids, and each created record has the fresh id and equal
timestamps. -/
theorem C7_create_identity_witness :
    (CreateDevice []
        ⟨"caller-chosen", "00:11:22:33:44:55", "Thermo", "thermostat",
          "home-1", 5, 7⟩ "uuid-1" 1700000000000).1 =
      { id := "uuid-1", mac := "00:11:22:33:44:55", name := "Thermo",
        type := "thermostat", homeId := "home-1",
        createdAt := 1700000000000, modifiedAt := 1700000000000 } ∧
    (CreateDevice []
        ⟨"caller-chosen", "00:11:22:33:44:55", "Thermo", "thermostat",
          "home-1", 5, 7⟩ "uuid-1" 1700000000000).1.modifiedAt =
      (CreateDevice []
        ⟨"caller-chosen", "00:11:22:33:44:55", "Thermo", "thermostat",
          "home-1", 5, 7⟩ "uuid-1" 1700000000000).1.createdAt ∧
    ((createAll []
        [(⟨"", "00:11:22:33:44:55", "Thermo", "thermostat", "home-1", 0, 0⟩,
            "uuid-1", 1700000000000),
         (⟨"", "66:77:88:99:AA:BB", "Cam", "camera", "home-1", 0, 0⟩,
            "uuid-2", 1700000000500)]).2.map Device.id).Nodup :=
  C7_create_identity []
    ⟨"caller-chosen", "00:11:22:33:44:55", "Thermo", "thermostat",
      "home-1", 5, 7⟩ "uuid-1" 1700000000000
    [(⟨"", "00:11:22:33:44:55", "Thermo", "thermostat", "home-1", 0, 0⟩,
        "uuid-1", 1700000000000),
     (⟨"", "66:77:88:99:AA:BB", "Cam", "camera", "home-1", 0, 0⟩,
        "uuid-2", 1700000000500)]
    (by decide)

/-- C8: validation completeness.  For any create request whose MAC is empty
and whose type is outside the enumerated set, the validator fails with a
violation list that contains the MAC-required message and the violated type
rule's message (the Go code joins this list with "; " into the failure
message), not just the first violation found. -/
theorem C8_validation_completeness (req : CreateDeviceRequest)
    (hmac : req.mac = "") (htype : req.type ∉ validTypes) :
    ∃ msgs, ValidateCreateDeviceRequest req =
        some (RepoError.validationFailed msgs) ∧
      "MAC address is required" ∈ msgs ∧
      (if req.type = "" then "type is required"
       else "type must be one of: thermostat, light, camera, sensor") ∈ msgs := by
  have hcontains : ¬ validTypes.contains req.type = true := by
    simpa using htype
  have hmacmem : "MAC address is required" ∈ createDeviceViolations req := by
    simp [createDeviceViolations, hmac]
  have htypemem :
      (if req.type = "" then "type is required"
       else "type must be one of: thermostat, light, camera, sensor") ∈
        createDeviceViolations req := by
    by_cases ht : req.type = ""
    · simp [createDeviceViolations, hmac, ht, hcontains]
    · simp [createDeviceViolations, hmac, ht, hcontains]
      exact Or.inr (Or.inl htype)
  have hlen : 0 < (createDeviceViolations req).length :=
    List.length_pos.mpr (List.ne_nil_of_mem hmacmem)
  exact ⟨createDeviceViolations req,
    by simp [ValidateCreateDeviceRequest, hlen], hmacmem, htypemem⟩

/-- C8 witness: a concrete request with empty MAC and invalid type fails
with a list containing both violation messages. -/
theorem C8_validation_completeness_witness :
    ∃ msgs, ValidateCreateDeviceRequest
        ⟨"", "Thermo", "toaster", "123e4567-e89b-12d3-a456-426614174000"⟩ =
        some (RepoError.validationFailed msgs) ∧
      "MAC address is required" ∈ msgs ∧
      (if "toaster" = "" then "type is required"
       else "type must be one of: thermostat, light, camera, sensor") ∈ msgs :=
  C8_validation_completeness
    ⟨"", "Thermo", "toaster", "123e4567-e89b-12d3-a456-426614174000"⟩
    rfl (by decide)

end SmartDevices
